import Mathlib

/-!
# Verification of the `app-monitoring` metric-event logging library

Shallow embedding of the Go library `piyushkumar96/app-monitoring`.

Modelling conventions:
* A Prometheus `CounterVec` is modelled as the list of `Inc` events performed
  on it, each event being the tuple of label values passed to
  `WithLabelValues` (`List String`), newest last.  A `HistogramVec` is the
  list of `Observe` events, each the pair of the label-value tuple and the
  observed value (exact rational, standing for the Go `float64`).
  A `GaugeVec` is the list of `Inc`/`Dec` events, each a label tuple paired
  with the delta `+1` / `-1`.
* A `nil` sub-metric pointer in a domain metric set is modelled by a `Bool`
  configuration flag (`false` = the meta entry was `nil`, so the handle is
  `nil` and the source's `!= nil` guard fails).
* Wall-clock instants (`time.Time`) and durations (`time.Duration`) are
  modelled as integers in nanoseconds, Go's representation.  A function whose
  Go body calls `time.Now()` receives the ambient clock reading as an extra
  `now : ℤ` parameter; `time.Since(t)` is `now - t`.
* Go's `Duration.Milliseconds()` is `int64(d) / 1e6`, integer division that
  truncates toward zero: `Int.tdiv`.
* A Go method that panics on some input (nil-pointer dereference) is
  embedded with an `Option` result, `none` marking the panic.
-/

namespace AppMonitoring

/-! ## constants/constants.go -/

/-- `Total` status label value (constants.go). -/
def Total : String := "total"

/-- `Success` status label value (constants.go). -/
def Success : String := "success"

/-- `Failure` status label value (constants.go). -/
def Failure : String := "failure"

/-- Minimum HTTP status code considered successful, inclusive (constants.go). -/
def HTTPStatus2XXMinValue : ℤ := 200

/-- Maximum HTTP status code considered successful, inclusive (constants.go). -/
def HTTPStatus2XXMaxValue : ℤ := 299

/-! ## Go time and strconv primitives used by the sources -/

/-- Go `time.Duration.Milliseconds()`: `int64(d) / 1e6`, division truncating
toward zero, on a duration `d` in nanoseconds. -/
def goMilliseconds (d : ℤ) : ℤ := d.tdiv 1000000

/-- Go `strconv.Itoa` (decimal representation of an integer). -/
def goItoa (n : ℤ) : String := toString n

/-- Result of Go `strconv.ParseInt(strconv.Itoa(n), 10, 32)`: the round-trip
parses back exactly `n` when `n` fits in a signed 32-bit integer, and returns
a range error otherwise (`none`).  `monitorRouter.go` maps the error case to
the value `0`. -/
def parseItoa32 (n : ℤ) : Option ℤ :=
  if -2147483648 ≤ n ∧ n ≤ 2147483647 then some n else none

/-! ## Database domain (monitorDatabase.go; the `PromDBMetrics` methods in
src/prometheus are line-for-line the same logic) -/

/-- Which sub-metrics of `DBMetricsMeta` were non-nil at construction
(`NewDatabaseMetrics`): `false` means the meta entry was `nil`, so the
corresponding handle in `DBMetrics` is `nil`. -/
structure DBConfig where
  operationsTotal : Bool
  operationsLatencyMillis : Bool
deriving DecidableEq, Repr

/-- Observation state of the two `DBMetrics` handles: the `Inc` events of the
`db_operations` counter and the `Observe` events of the
`db_operations_latency_millis` histogram. -/
structure DBState where
  operationsTotal : List (List String)
  operationsLatencyMillis : List (List String × ℚ)
deriving DecidableEq, Repr

/-- The empty observation state (no increments, no observations yet). -/
def DBState.empty : DBState := ⟨[], []⟩

/-- `DBMetricsLabelValues` (models package): caller-supplied label values. -/
structure DBMetricsLabelValues where
  OpType : String
  Source : String
  AdEntity : String
  IsTxn : String
deriving DecidableEq, Repr

/-- `DBMetrics.LogMetricsPre` (monitorDatabase.go): if the operations counter
is configured, increments it with labels `(OpType, Source, AdEntity, IsTxn,
"total")`; returns `time.Now()` (the ambient clock `now`). -/
def DBMetrics.LogMetricsPre (cfg : DBConfig) (lv : DBMetricsLabelValues)
    (s : DBState) (now : ℤ) : DBState × ℤ :=
  (if cfg.operationsTotal then
    { s with operationsTotal :=
        s.operationsTotal ++ [[lv.OpType, lv.Source, lv.AdEntity, lv.IsTxn, Total]] }
   else s, now)

/-- `DBMetrics.LogMetricsPost` (monitorDatabase.go).  `appErr = true` models a
non-nil `*ae.AppError`.  Increments the counter with status `"failure"` /
`"success"`, then observes `time.Since(opsExecTime).Milliseconds()` on the
latency histogram when configured. -/
def DBMetrics.LogMetricsPost (cfg : DBConfig) (appErr : Bool)
    (lv : DBMetricsLabelValues) (opsExecTime : ℤ) (s : DBState) (now : ℤ) :
    DBState :=
  let s1 :=
    if cfg.operationsTotal then
      if appErr then
        { s with operationsTotal :=
            s.operationsTotal ++ [[lv.OpType, lv.Source, lv.AdEntity, lv.IsTxn, Failure]] }
      else
        { s with operationsTotal :=
            s.operationsTotal ++ [[lv.OpType, lv.Source, lv.AdEntity, lv.IsTxn, Success]] }
    else s
  if cfg.operationsLatencyMillis then
    { s1 with operationsLatencyMillis :=
        s1.operationsLatencyMillis ++
          [([lv.OpType, lv.Source, lv.AdEntity, lv.IsTxn],
            ((goMilliseconds (now - opsExecTime) : ℤ) : ℚ))] }
  else s1

/-! ## Cron Job domain (monitorCronJob.go; `PromCronJobMetrics` is the same
logic) -/

/-- Which sub-metrics of `CronJobMetricsMeta` were non-nil at construction
(`NewCronJobMetrics`). -/
structure CronJobConfig where
  jobExecutionTotal : Bool
  jobExecutionLatencyMillis : Bool
deriving DecidableEq, Repr

/-- Observation state of the `cron_job_execution_count` counter and the
`cron_job_execution_latency_millis` histogram. -/
structure CronJobState where
  jobExecutionTotal : List (List String)
  jobExecutionLatencyMillis : List (List String × ℚ)
deriving DecidableEq, Repr

/-- The empty observation state. -/
def CronJobState.empty : CronJobState := ⟨[], []⟩

/-- `CronJobMetricsLabelValues` (models package). -/
structure CronJobMetricsLabelValues where
  JobName : String
deriving DecidableEq, Repr

/-- `CronJobMetrics.LogMetricsPre` (monitorCronJob.go): increments the job
counter with labels `(JobName, "total")` when configured; returns
`time.Now()`. -/
def CronJobMetrics.LogMetricsPre (cfg : CronJobConfig)
    (lv : CronJobMetricsLabelValues) (s : CronJobState) (now : ℤ) :
    CronJobState × ℤ :=
  (if cfg.jobExecutionTotal then
    { s with jobExecutionTotal := s.jobExecutionTotal ++ [[lv.JobName, Total]] }
   else s, now)

/-- `CronJobMetrics.LogMetricsPost` (monitorCronJob.go).  `appErr = true`
models a non-nil `*ae.AppError`. -/
def CronJobMetrics.LogMetricsPost (cfg : CronJobConfig) (appErr : Bool)
    (lv : CronJobMetricsLabelValues) (opsExecTime : ℤ) (s : CronJobState)
    (now : ℤ) : CronJobState :=
  let s1 :=
    if cfg.jobExecutionTotal then
      if appErr then
        { s with jobExecutionTotal := s.jobExecutionTotal ++ [[lv.JobName, Failure]] }
      else
        { s with jobExecutionTotal := s.jobExecutionTotal ++ [[lv.JobName, Success]] }
    else s
  if cfg.jobExecutionLatencyMillis then
    { s1 with jobExecutionLatencyMillis :=
        s1.jobExecutionLatencyMillis ++
          [([lv.JobName], ((goMilliseconds (now - opsExecTime) : ℤ) : ℚ))] }
  else s1

/-! ## Downstream Service domain (src/prometheus/monitorDownstreamService.go;
this domain exists only as the `PromDownstreamServiceMetrics` variant) -/

/-- Which sub-metrics of `DownstreamServiceMetricsMeta` were non-nil at
construction (`NewPromDownstreamServiceMetrics`). -/
structure DSConfig where
  httpRequests : Bool
  httpRequestsLatencyMillis : Bool
  httpRequestSizeBytes : Bool
  httpResponseSizeBytes : Bool
deriving DecidableEq, Repr

/-- Observation state of the four downstream-service handles. -/
structure DSState where
  httpRequests : List (List String)
  httpRequestsLatencyMillis : List (List String × ℚ)
  httpRequestSizeBytes : List (List String × ℚ)
  httpResponseSizeBytes : List (List String × ℚ)
deriving DecidableEq, Repr

/-- The empty observation state. -/
def DSState.empty : DSState := ⟨[], [], [], []⟩

/-- `DownstreamServiceMetricsLabelValues` (models package). -/
structure DownstreamServiceMetricsLabelValues where
  Name : String
  HTTPMethod : String
  APIIdentifier : String
deriving DecidableEq, Repr

/-- `HTTPMetrics` (models package): downstream-call completion data.
`ResponseTime` is a Go `time.Duration` in nanoseconds. -/
structure HTTPMetrics where
  Method : String
  Code : ℤ
  RequestBodySizeBytes : ℤ
  ResponseBodySizeBytes : ℤ
  ResponseTime : ℤ
deriving DecidableEq, Repr

/-- `PromDownstreamServiceMetrics.LogMetricsPre`
(monitorDownstreamService.go): increments the request counter with labels
`(Name, HTTPMethod, "", APIIdentifier, "total")` when configured.  The Go
method has **no return value** and never reads the clock; the ambient clock
parameter `_now` is ignored, mirroring that. -/
def PromDownstreamServiceMetrics.LogMetricsPre (cfg : DSConfig)
    (lv : DownstreamServiceMetricsLabelValues) (s : DSState) (_now : ℤ) :
    DSState :=
  if cfg.httpRequests then
    { s with httpRequests :=
        s.httpRequests ++ [[lv.Name, lv.HTTPMethod, "", lv.APIIdentifier, Total]] }
  else s

/-- `PromDownstreamServiceMetrics.LogMetricsPost`
(monitorDownstreamService.go): classifies by the caller-supplied `success`
boolean and observes the caller-supplied `httpMetrics` fields (latency from
`ResponseTime.Milliseconds()`, sizes from the byte counts). -/
def PromDownstreamServiceMetrics.LogMetricsPost (cfg : DSConfig)
    (success : Bool) (lv : DownstreamServiceMetricsLabelValues)
    (m : HTTPMetrics) (s : DSState) : DSState :=
  let httpCodeStr := goItoa m.Code
  let s1 :=
    if cfg.httpRequests then
      if success then
        { s with httpRequests :=
            s.httpRequests ++ [[lv.Name, m.Method, httpCodeStr, lv.APIIdentifier, Success]] }
      else
        { s with httpRequests :=
            s.httpRequests ++ [[lv.Name, m.Method, httpCodeStr, lv.APIIdentifier, Failure]] }
    else s
  let s2 :=
    if cfg.httpRequestsLatencyMillis then
      { s1 with httpRequestsLatencyMillis :=
          s1.httpRequestsLatencyMillis ++
            [([lv.Name, m.Method, httpCodeStr, lv.APIIdentifier],
              ((goMilliseconds m.ResponseTime : ℤ) : ℚ))] }
    else s1
  let s3 :=
    if cfg.httpRequestSizeBytes then
      { s2 with httpRequestSizeBytes :=
          s2.httpRequestSizeBytes ++
            [([lv.Name, m.Method, httpCodeStr, lv.APIIdentifier],
              (m.RequestBodySizeBytes : ℚ))] }
    else s2
  if cfg.httpResponseSizeBytes then
    { s3 with httpResponseSizeBytes :=
        s3.httpResponseSizeBytes ++
          [([lv.Name, m.Method, httpCodeStr, lv.APIIdentifier],
            (m.ResponseBodySizeBytes : ℚ))] }
  else s3

/-! ## Pub/Sub domain (monitorPubSub.go; `PromPSMetrics` is the same logic) -/

/-- Which sub-metrics of `PSMetricsMeta` were non-nil at construction
(`NewPubSubMetrics`). -/
structure PSConfig where
  totalMessagesConsumed : Bool
  totalMessagesPublished : Bool
  messagesPublishedLatencyMillis : Bool
  messagesPublishedSizeBytes : Bool
deriving DecidableEq, Repr

/-- Observation state of the four pub/sub handles. -/
structure PSState where
  totalMessagesConsumed : List (List String)
  totalMessagesPublished : List (List String)
  messagesPublishedLatencyMillis : List (List String × ℚ)
  messagesPublishedSizeBytes : List (List String × ℚ)
deriving DecidableEq, Repr

/-- The empty observation state. -/
def PSState.empty : PSState := ⟨[], [], [], []⟩

/-- `PSMetricsLabelValues` (models package). -/
structure PSMetricsLabelValues where
  Source : String
  Entity : String
  EntityOpType : String
  ErrorCode : String
deriving DecidableEq, Repr

/-- `pubsub.EventTxnData` (generic-pubsub package): publish-transaction data.
`TimeTakenToPublish` is a Go `time.Duration` in nanoseconds.  The Go pointer
`*pubsub.EventTxnData` is modelled as `Option EventTxnData` at call sites. -/
structure EventTxnData where
  IsPublished : Bool
  TimeTakenToPublish : ℤ
  MessageSizeInBytes : ℤ
deriving DecidableEq, Repr

/-- `PSMetrics.LogMetricsPre` (monitorPubSub.go): increments the published
counter with `(Entity, EntityOpType, "total")` and the consumed counter with
`(Source, Entity, EntityOpType, "total", "")`, each when configured; returns
`time.Now()`. -/
def PSMetrics.LogMetricsPre (cfg : PSConfig) (lv : PSMetricsLabelValues)
    (s : PSState) (now : ℤ) : PSState × ℤ :=
  let s1 :=
    if cfg.totalMessagesPublished then
      { s with totalMessagesPublished :=
          s.totalMessagesPublished ++ [[lv.Entity, lv.EntityOpType, Total]] }
    else s
  let s2 :=
    if cfg.totalMessagesConsumed then
      { s1 with totalMessagesConsumed :=
          s1.totalMessagesConsumed ++
            [[lv.Source, lv.Entity, lv.EntityOpType, Total, ""]] }
    else s1
  (s2, now)

/-- `PSMetrics.LogMetricsPost` (monitorPubSub.go).  All three publish-side
observations are guarded by `handle != nil && eventTxnData != nil`; the
consume-side counter is guarded only by its handle and classifies by
`ErrorCode != ""`. -/
def PSMetrics.LogMetricsPost (cfg : PSConfig) (lv : PSMetricsLabelValues)
    (eventTxnData : Option EventTxnData) (s : PSState) : PSState :=
  let s1 :=
    match eventTxnData with
    | some t =>
      if cfg.totalMessagesPublished then
        if t.IsPublished then
          { s with totalMessagesPublished :=
              s.totalMessagesPublished ++ [[lv.Entity, lv.EntityOpType, Success]] }
        else
          { s with totalMessagesPublished :=
              s.totalMessagesPublished ++ [[lv.Entity, lv.EntityOpType, Failure]] }
      else s
    | none => s
  let s2 :=
    match eventTxnData with
    | some t =>
      if cfg.messagesPublishedLatencyMillis then
        { s1 with messagesPublishedLatencyMillis :=
            s1.messagesPublishedLatencyMillis ++
              [([lv.Entity, lv.EntityOpType],
                ((goMilliseconds t.TimeTakenToPublish : ℤ) : ℚ))] }
      else s1
    | none => s1
  let s3 :=
    match eventTxnData with
    | some t =>
      if cfg.messagesPublishedSizeBytes then
        { s2 with messagesPublishedSizeBytes :=
            s2.messagesPublishedSizeBytes ++
              [([lv.Entity, lv.EntityOpType], (t.MessageSizeInBytes : ℚ))] }
      else s2
    | none => s2
  if cfg.totalMessagesConsumed then
    if lv.ErrorCode ≠ "" then
      { s3 with totalMessagesConsumed :=
          s3.totalMessagesConsumed ++
            [[lv.Source, lv.Entity, lv.EntityOpType, Failure, lv.ErrorCode]] }
    else
      { s3 with totalMessagesConsumed :=
          s3.totalMessagesConsumed ++
            [[lv.Source, lv.Entity, lv.EntityOpType, Success, lv.ErrorCode]] }
  else s3

/-! ## Router domain (monitorRouter.go) -/

/-- Which sub-metrics of `RouterMetricsMeta` were non-nil at construction
(`NewRouterLevelMetrics`). -/
structure RouterConfig where
  httpRequests : Bool
  httpRequestsLatencyMillis : Bool
  httpRequestSizeBytes : Bool
  httpResponseSizeBytes : Bool
deriving DecidableEq, Repr

/-- Observation state of the four router handles. -/
structure RouterState where
  httpRequests : List (List String)
  httpRequestsLatencyMillis : List (List String × ℚ)
  httpRequestSizeBytes : List (List String × ℚ)
  httpResponseSizeBytes : List (List String × ℚ)
deriving DecidableEq, Repr

/-- The empty observation state. -/
def RouterState.empty : RouterState := ⟨[], [], [], []⟩

/-- The inbound `*http.Request` fields read by the router middleware.
`url` is `Option String` holding `r.URL.Path` (`none` models a nil `r.URL`);
`contentLength` is Go `r.ContentLength` (`-1` = unknown).  Headers are the
map of header name to its list of values. -/
structure HTTPRequest where
  url : Option String
  method : String
  proto : String
  headers : List (String × List String)
  host : String
  contentLength : ℤ
deriving DecidableEq, Repr

/-- `computeApproximateRequestSize` (monitorRouter.go): URL path length (when
the URL is non-nil) + method + proto + all header names and values + host,
plus the content length when it is not `-1`. -/
def computeApproximateRequestSize (r : HTTPRequest) : ℤ :=
  let t0 : ℤ := match r.url with
    | some p => (p.length : ℤ)
    | none => 0
  let t1 := t0 + (r.method.length : ℤ) + (r.proto.length : ℤ)
  let t2 := r.headers.foldl
    (fun acc nv =>
      acc + (nv.1.length : ℤ) + nv.2.foldl (fun a v => a + (v.length : ℤ)) 0)
    t1
  let t3 := t2 + (r.host.length : ℤ)
  if r.contentLength ≠ -1 then t3 + r.contentLength else t3

/-- One execution of the closure returned by `RouterMetrics.LogMetrics`
(monitorRouter.go) on a single request.  Inputs beyond the request: `fullPath`
is `gc.FullPath()` (the matched route pattern), `status` is
`gc.Writer.Status()` after the downstream handler ran, `respSize` is
`gc.Writer.Size()`, `startNow` is the clock at `time.Now()` before `gc.Next()`
and `endNow` the clock at the `time.Since(start)` call after it.

The Go closure reads `gc.Request.URL.Path` without a nil check, so a nil URL
panics: result `none`.  The elapsed value observed on the latency histogram is
`float64(time.Since(start)) / float64(time.Millisecond)`, i.e. the exact
quotient `(endNow - startNow) / 10^6` — a fractional number of milliseconds
(the `float64` conversion is modelled as exact rational arithmetic). -/
def RouterMetrics.LogMetrics (cfg : RouterConfig) (metricsPath : String)
    (req : HTTPRequest) (fullPath : String) (status : ℤ) (respSize : ℤ)
    (startNow endNow : ℤ) (s : RouterState) : Option RouterState :=
  match req.url with
  | none => none
  | some urlDotPath =>
    if urlDotPath = metricsPath then some s
    else
      let reqSize : ℚ := (computeApproximateRequestSize req : ℚ)
      let s1 :=
        if cfg.httpRequests then
          { s with httpRequests :=
              s.httpRequests ++ [[req.method, "", fullPath, Total]] }
        else s
      -- gc.Next() runs the downstream handler here
      let httpCode := goItoa status
      let elapsed : ℚ := ((endNow - startNow : ℤ) : ℚ) / ((1000000 : ℤ) : ℚ)
      -- strconv.ParseInt error (out of int32 range) mapped to 0
      let httpCodeInt : ℤ := (parseItoa32 status).getD 0
      let s2 :=
        if cfg.httpRequests then
          if HTTPStatus2XXMinValue ≤ httpCodeInt ∧ httpCodeInt ≤ HTTPStatus2XXMaxValue then
            { s1 with httpRequests :=
                s1.httpRequests ++ [[req.method, httpCode, fullPath, Success]] }
          else
            { s1 with httpRequests :=
                s1.httpRequests ++ [[req.method, httpCode, fullPath, Failure]] }
        else s1
      let s3 :=
        if cfg.httpRequestsLatencyMillis then
          { s2 with httpRequestsLatencyMillis :=
              s2.httpRequestsLatencyMillis ++
                [([req.method, httpCode, fullPath], elapsed)] }
        else s2
      let s4 :=
        if cfg.httpRequestSizeBytes then
          { s3 with httpRequestSizeBytes :=
              s3.httpRequestSizeBytes ++
                [([req.method, httpCode, fullPath], reqSize)] }
        else s3
      some <|
        if cfg.httpResponseSizeBytes then
          { s4 with httpResponseSizeBytes :=
              s4.httpResponseSizeBytes ++
                [([req.method, httpCode, fullPath], (respSize : ℚ))] }
        else s4

/-! ## Application Error domain (`AppMetrics` in the top-level package and
`PromAppMetrics` in src/prometheus carry the same logic, including the
unguarded `DecrementAppErrorCount`) -/

/-- Whether `ApplicationErrorsCounter` was non-nil at construction
(`NewAppMetrics` / `NewPromAppMetrics`). -/
structure AppConfig where
  applicationErrorsCounter : Bool
deriving DecidableEq, Repr

/-- Observation state of the `application_errors_total` gauge: each event is
the label tuple with the applied delta (`+1` for `Inc`, `-1` for `Dec`). -/
structure AppState where
  applicationErrorsCounter : List (List String × ℤ)
deriving DecidableEq, Repr

/-- The empty observation state. -/
def AppState.empty : AppState := ⟨[]⟩

/-- `AppMetrics.LogMetrics` (top-level package / `PromAppMetrics.LogMetrics`):
when the gauge is configured, increments it once per supplied error code, in
order; otherwise does nothing. -/
def AppMetrics.LogMetrics (cfg : AppConfig) (errCodes : List String)
    (s : AppState) : AppState :=
  if cfg.applicationErrorsCounter then
    { s with applicationErrorsCounter :=
        s.applicationErrorsCounter ++ errCodes.map (fun c => ([c], (1 : ℤ))) }
  else s

/-- `AppMetrics.DecrementAppErrorCount` (top-level package /
`PromAppMetrics.DecrementAppErrorCount`): calls
`applicationErrorsCounter.WithLabelValues(errCode).Dec()` with **no nil
check**; when the gauge was not configured the handle is nil and the call
panics — modelled as `none`. -/
def AppMetrics.DecrementAppErrorCount (cfg : AppConfig) (errCode : String)
    (s : AppState) : Option AppState :=
  if cfg.applicationErrorsCounter then
    some { s with applicationErrorsCounter :=
        s.applicationErrorsCounter ++ [([errCode], (-1 : ℤ))] }
  else none

/-! ## Bucket generator -/

/-- Modelled from the spec: `GetPromExponentialBuckets`
(src/prometheus/metric.go) delegates to the external Prometheus client's
`ExponentialBuckets`, whose body is not part of this repository.  The spec
defines it as the ordered sequence of `count` boundaries with element `i`
equal to `start × factor^i`; the upstream loop computes this by repeated
multiplication, mirrored here (exact rational arithmetic stands for
`float64`). -/
def exponentialBucketsAux : ℚ → ℚ → ℕ → List ℚ
  | _, _, 0 => []
  | cur, factor, n + 1 => cur :: exponentialBucketsAux (cur * factor) factor n

/-- Modelled from the spec: `exponentialBuckets(start, factor, count)`,
the sequence produced by `GetPromExponentialBuckets`. -/
def exponentialBuckets (start factor : ℚ) (count : ℕ) : List ℚ :=
  exponentialBucketsAux start factor count

/-! ## Counting observations and pre/post call sequences

`statusCount idx st ev` counts the `Inc` events of a counter whose label
tuple carries the status label `st` at position `idx` (each domain places its
status dimension at a fixed position in the label list). -/

/-- Number of counter events whose label at position `idx` is `st`. -/
def statusCount (idx : ℕ) (st : String) (ev : List (List String)) : ℕ :=
  (ev.filter (fun e => e.getD idx "" == st)).length

/-- `n` successive `DBMetrics.LogMetricsPre` calls with the same label
values (clock readings are irrelevant to the counters). -/
def dbPreIter (cfg : DBConfig) (lv : DBMetricsLabelValues) :
    ℕ → DBState → DBState
  | 0, s => s
  | n + 1, s => dbPreIter cfg lv n (DBMetrics.LogMetricsPre cfg lv s 0).1

/-- `errs.length` `Pre` calls followed by one `Post` call per outcome in
`errs` (`true` = the operation returned a non-nil error), matching labels. -/
def dbRun (cfg : DBConfig) (lv : DBMetricsLabelValues) (errs : List Bool)
    (s : DBState) : DBState :=
  errs.foldl (fun st e => DBMetrics.LogMetricsPost cfg e lv 0 st 0)
    (dbPreIter cfg lv errs.length s)

/-- `n` successive `CronJobMetrics.LogMetricsPre` calls. -/
def cronPreIter (cfg : CronJobConfig) (lv : CronJobMetricsLabelValues) :
    ℕ → CronJobState → CronJobState
  | 0, s => s
  | n + 1, s => cronPreIter cfg lv n (CronJobMetrics.LogMetricsPre cfg lv s 0).1

/-- `errs.length` cron `Pre` calls followed by one `Post` per outcome. -/
def cronRun (cfg : CronJobConfig) (lv : CronJobMetricsLabelValues)
    (errs : List Bool) (s : CronJobState) : CronJobState :=
  errs.foldl (fun st e => CronJobMetrics.LogMetricsPost cfg e lv 0 st 0)
    (cronPreIter cfg lv errs.length s)

/-- `n` successive downstream-service `Pre` calls. -/
def dsPreIter (cfg : DSConfig) (lv : DownstreamServiceMetricsLabelValues) :
    ℕ → DSState → DSState
  | 0, s => s
  | n + 1, s => dsPreIter cfg lv n (PromDownstreamServiceMetrics.LogMetricsPre cfg lv s 0)

/-- `succs.length` downstream `Pre` calls followed by one `Post` per
caller-supplied success boolean, with fixed completion data `m`. -/
def dsRun (cfg : DSConfig) (lv : DownstreamServiceMetricsLabelValues)
    (m : HTTPMetrics) (succs : List Bool) (s : DSState) : DSState :=
  succs.foldl (fun st b => PromDownstreamServiceMetrics.LogMetricsPost cfg b lv m st)
    (dsPreIter cfg lv succs.length s)

/-- `n` successive pub/sub `Pre` calls. -/
def psPreIter (cfg : PSConfig) (lv : PSMetricsLabelValues) :
    ℕ → PSState → PSState
  | 0, s => s
  | n + 1, s => psPreIter cfg lv n (PSMetrics.LogMetricsPre cfg lv s 0).1

/-- `txns.length` pub/sub `Pre` calls followed by one `Post` per transaction
datum (`none` = a pure-consumption `Post`), matching labels. -/
def psRun (cfg : PSConfig) (lv : PSMetricsLabelValues)
    (txns : List (Option EventTxnData)) (s : PSState) : PSState :=
  txns.foldl (fun st t => PSMetrics.LogMetricsPost cfg lv t st)
    (psPreIter cfg lv txns.length s)

/-! ## Sample inputs used in witnesses and counterexamples -/

/-- Sample database label values. -/
def dbLv0 : DBMetricsLabelValues := ⟨"select", "repo", "users", "false"⟩

/-- Sample cron-job label values. -/
def cronLv0 : CronJobMetricsLabelValues := ⟨"daily_cleanup"⟩

/-- Sample downstream-service label values. -/
def dsLv0 : DownstreamServiceMetricsLabelValues := ⟨"svc", "GET", "api1"⟩

/-- Sample pub/sub label values with an empty error code. -/
def psLv0 : PSMetricsLabelValues := ⟨"sub", "order", "create", ""⟩

/-- Sample pub/sub label values with a non-empty error code. -/
def psLvErr : PSMetricsLabelValues := ⟨"sub", "order", "create", "ERR_VALIDATION"⟩

/-- Sample downstream completion data: 200, 1.5 ms response time. -/
def httpm0 : HTTPMetrics := ⟨"GET", 200, 10, 20, 1500000⟩

/-- Sample inbound request (non-nil URL, unknown content length). -/
def req0 : HTTPRequest := ⟨some "/a", "GET", "HTTP/1.1", [], "h", -1⟩

/-- Pub/sub configuration with only the published counter enabled. -/
def psCfgPubOnly : PSConfig := ⟨false, true, false, false⟩

/-- Router configuration with only the latency histogram enabled. -/
def routerCfgLatOnly : RouterConfig := ⟨false, true, false, false⟩

/-! ## Helper lemmas -/

lemma toDigitsCore_length_le (b : ℕ) :
    ∀ (fuel n : ℕ) (ds : List Char), ds.length ≤ (Nat.toDigitsCore b fuel n ds).length := by
  intro fuel
  induction fuel with
  | zero => intro n ds; simp [Nat.toDigitsCore]
  | succ f ih =>
    intro n ds
    unfold Nat.toDigitsCore
    by_cases h : n / b = 0
    · simp [h]
    · simp only [h, if_false]
      exact le_trans (by simp) (ih (n / b) (Nat.digitChar (n % b) :: ds))

lemma natRepr_length_pos (n : ℕ) : 0 < (Nat.repr n).length := by
  unfold Nat.repr Nat.toDigits
  have h : 1 ≤ (Nat.toDigitsCore 10 (n + 1) n []).length := by
    unfold Nat.toDigitsCore
    by_cases h : n / 10 = 0
    · simp [h]
    · simp only [h, if_false]
      exact le_trans (by simp) (toDigitsCore_length_le 10 n (n / 10) [Nat.digitChar (n % 10)])
  simpa [List.asString] using h

/-- `strconv.Itoa` never yields the empty string. -/
lemma goItoa_ne_empty (n : ℤ) : goItoa n ≠ "" := by
  show Int.repr n ≠ ""
  intro h
  have hl := congrArg String.length h
  have e1 : ("" : String).length = 0 := rfl
  cases n with
  | ofNat m =>
    simp only [Int.repr] at hl
    rw [e1] at hl
    have := natRepr_length_pos m
    omega
  | negSucc m =>
    simp only [Int.repr] at hl
    have e2 : ("-" : String).length = 1 := rfl
    rw [String.length_append, e1, e2] at hl
    have := natRepr_length_pos (m + 1)
    omega

lemma statusCount_append (idx : ℕ) (st : String) (a b : List (List String)) :
    statusCount idx st (a ++ b) = statusCount idx st a + statusCount idx st b := by
  simp [statusCount, List.filter_append]

lemma statusCount_replicate (idx : ℕ) (st : String) (n : ℕ) (tup : List String) :
    statusCount idx st (List.replicate n tup) =
      if tup.getD idx "" = st then n else 0 := by
  simp only [statusCount, List.filter_replicate, List.getD_eq_getElem?_getD]
  by_cases h : tup[idx]?.getD "" = st <;> simp [h]

lemma statusCount_cons (idx : ℕ) (st : String) (x : List String)
    (l : List (List String)) :
    statusCount idx st (x :: l) =
      (if x.getD idx "" = st then 1 else 0) + statusCount idx st l := by
  simp only [statusCount, List.filter_cons, List.getD_eq_getElem?_getD]
  by_cases h : x[idx]?.getD "" = st <;> simp [h, Nat.add_comm]

lemma statusCount_map_ne (idx : ℕ) (st : String) (f : Bool → List String)
    (h : ∀ b, (f b).getD idx "" ≠ st) (errs : List Bool) :
    statusCount idx st (errs.map f) = 0 := by
  induction errs with
  | nil => simp [statusCount]
  | cons e t ih =>
    rw [List.map_cons, statusCount_cons, if_neg (h e), ih]

lemma statusCount_map_sum (idx : ℕ) (f : Bool → List String)
    (hSF : ∀ b, (f b).getD idx "" = Success ∨ (f b).getD idx "" = Failure)
    (errs : List Bool) :
    statusCount idx Success (errs.map f) + statusCount idx Failure (errs.map f)
      = errs.length := by
  induction errs with
  | nil => simp [statusCount]
  | cons e t ih =>
    have hne : Success ≠ Failure := by decide
    rw [List.map_cons, statusCount_cons, statusCount_cons]
    rcases hSF e with h | h <;> rw [h] <;>
      simp [hne, Ne.symm hne] <;> omega

/-! ### Characterization lemmas: each call appends its guarded events -/

lemma dbPre_char (cfg : DBConfig) (lv : DBMetricsLabelValues) (s : DBState)
    (now : ℤ) :
    DBMetrics.LogMetricsPre cfg lv s now =
      ({ s with operationsTotal := s.operationsTotal ++
          (if cfg.operationsTotal then
            [[lv.OpType, lv.Source, lv.AdEntity, lv.IsTxn, Total]] else []) },
       now) := by
  simp only [DBMetrics.LogMetricsPre]
  split_ifs <;> simp

lemma dbPost_char (cfg : DBConfig) (appErr : Bool) (lv : DBMetricsLabelValues)
    (t : ℤ) (s : DBState) (now : ℤ) :
    DBMetrics.LogMetricsPost cfg appErr lv t s now =
      { s with
        operationsTotal := s.operationsTotal ++
          (if cfg.operationsTotal then
            [[lv.OpType, lv.Source, lv.AdEntity, lv.IsTxn,
              if appErr then Failure else Success]] else []),
        operationsLatencyMillis := s.operationsLatencyMillis ++
          (if cfg.operationsLatencyMillis then
            [([lv.OpType, lv.Source, lv.AdEntity, lv.IsTxn],
              ((goMilliseconds (now - t) : ℤ) : ℚ))] else []) } := by
  simp only [DBMetrics.LogMetricsPost]
  cases appErr <;> split_ifs <;> simp

lemma cronPre_char (cfg : CronJobConfig) (lv : CronJobMetricsLabelValues)
    (s : CronJobState) (now : ℤ) :
    CronJobMetrics.LogMetricsPre cfg lv s now =
      ({ s with jobExecutionTotal := s.jobExecutionTotal ++
          (if cfg.jobExecutionTotal then [[lv.JobName, Total]] else []) },
       now) := by
  simp only [CronJobMetrics.LogMetricsPre]
  split_ifs <;> simp

lemma cronPost_char (cfg : CronJobConfig) (appErr : Bool)
    (lv : CronJobMetricsLabelValues) (t : ℤ) (s : CronJobState) (now : ℤ) :
    CronJobMetrics.LogMetricsPost cfg appErr lv t s now =
      { s with
        jobExecutionTotal := s.jobExecutionTotal ++
          (if cfg.jobExecutionTotal then
            [[lv.JobName, if appErr then Failure else Success]] else []),
        jobExecutionLatencyMillis := s.jobExecutionLatencyMillis ++
          (if cfg.jobExecutionLatencyMillis then
            [([lv.JobName], ((goMilliseconds (now - t) : ℤ) : ℚ))] else []) } := by
  simp only [CronJobMetrics.LogMetricsPost]
  cases appErr <;> split_ifs <;> simp

lemma dsPre_char (cfg : DSConfig) (lv : DownstreamServiceMetricsLabelValues)
    (s : DSState) (now : ℤ) :
    PromDownstreamServiceMetrics.LogMetricsPre cfg lv s now =
      { s with httpRequests := s.httpRequests ++
          (if cfg.httpRequests then
            [[lv.Name, lv.HTTPMethod, "", lv.APIIdentifier, Total]] else []) } := by
  simp only [PromDownstreamServiceMetrics.LogMetricsPre]
  split_ifs <;> simp

lemma dsPost_char (cfg : DSConfig) (b : Bool)
    (lv : DownstreamServiceMetricsLabelValues) (m : HTTPMetrics) (s : DSState) :
    PromDownstreamServiceMetrics.LogMetricsPost cfg b lv m s =
      { s with
        httpRequests := s.httpRequests ++
          (if cfg.httpRequests then
            [[lv.Name, m.Method, goItoa m.Code, lv.APIIdentifier,
              if b then Success else Failure]] else []),
        httpRequestsLatencyMillis := s.httpRequestsLatencyMillis ++
          (if cfg.httpRequestsLatencyMillis then
            [([lv.Name, m.Method, goItoa m.Code, lv.APIIdentifier],
              ((goMilliseconds m.ResponseTime : ℤ) : ℚ))] else []),
        httpRequestSizeBytes := s.httpRequestSizeBytes ++
          (if cfg.httpRequestSizeBytes then
            [([lv.Name, m.Method, goItoa m.Code, lv.APIIdentifier],
              (m.RequestBodySizeBytes : ℚ))] else []),
        httpResponseSizeBytes := s.httpResponseSizeBytes ++
          (if cfg.httpResponseSizeBytes then
            [([lv.Name, m.Method, goItoa m.Code, lv.APIIdentifier],
              (m.ResponseBodySizeBytes : ℚ))] else []) } := by
  simp only [PromDownstreamServiceMetrics.LogMetricsPost]
  cases b <;> split_ifs <;> simp

lemma psPre_char (cfg : PSConfig) (lv : PSMetricsLabelValues) (s : PSState)
    (now : ℤ) :
    PSMetrics.LogMetricsPre cfg lv s now =
      ({ s with
          totalMessagesPublished := s.totalMessagesPublished ++
            (if cfg.totalMessagesPublished then
              [[lv.Entity, lv.EntityOpType, Total]] else []),
          totalMessagesConsumed := s.totalMessagesConsumed ++
            (if cfg.totalMessagesConsumed then
              [[lv.Source, lv.Entity, lv.EntityOpType, Total, ""]] else []) },
       now) := by
  simp only [PSMetrics.LogMetricsPre]
  split_ifs <;> simp

lemma psPost_char_none (cfg : PSConfig) (lv : PSMetricsLabelValues)
    (s : PSState) :
    PSMetrics.LogMetricsPost cfg lv none s =
      { s with totalMessagesConsumed := s.totalMessagesConsumed ++
          (if cfg.totalMessagesConsumed then
            [[lv.Source, lv.Entity, lv.EntityOpType,
              if lv.ErrorCode ≠ "" then Failure else Success, lv.ErrorCode]]
            else []) } := by
  simp only [PSMetrics.LogMetricsPost]
  by_cases he : lv.ErrorCode = "" <;> simp [he] <;> split_ifs <;> simp

lemma psPost_char_some (cfg : PSConfig) (lv : PSMetricsLabelValues)
    (t : EventTxnData) (s : PSState) :
    PSMetrics.LogMetricsPost cfg lv (some t) s =
      { s with
        totalMessagesPublished := s.totalMessagesPublished ++
          (if cfg.totalMessagesPublished then
            [[lv.Entity, lv.EntityOpType,
              if t.IsPublished then Success else Failure]] else []),
        messagesPublishedLatencyMillis := s.messagesPublishedLatencyMillis ++
          (if cfg.messagesPublishedLatencyMillis then
            [([lv.Entity, lv.EntityOpType],
              ((goMilliseconds t.TimeTakenToPublish : ℤ) : ℚ))] else []),
        messagesPublishedSizeBytes := s.messagesPublishedSizeBytes ++
          (if cfg.messagesPublishedSizeBytes then
            [([lv.Entity, lv.EntityOpType], (t.MessageSizeInBytes : ℚ))]
            else []),
        totalMessagesConsumed := s.totalMessagesConsumed ++
          (if cfg.totalMessagesConsumed then
            [[lv.Source, lv.Entity, lv.EntityOpType,
              if lv.ErrorCode ≠ "" then Failure else Success, lv.ErrorCode]]
            else []) } := by
  simp only [PSMetrics.LogMetricsPost]
  by_cases he : lv.ErrorCode = "" <;>
    cases ht : t.IsPublished <;> simp [he] <;> split_ifs <;> simp

lemma appLog_char (cfg : AppConfig) (errCodes : List String) (s : AppState) :
    AppMetrics.LogMetrics cfg errCodes s =
      { s with applicationErrorsCounter := s.applicationErrorsCounter ++
          (if cfg.applicationErrorsCounter then
            errCodes.map (fun c => ([c], (1 : ℤ))) else []) } := by
  simp only [AppMetrics.LogMetrics]
  split_ifs <;> simp

/-! ## Claims -/

/-- C9: the exponential bucket generator is pure and deterministic; for
`start > 0`, `factor > 1`, `count ≥ 1` it yields `count` boundaries with
element `i` equal to `start × factor^i`; in particular
`exponentialBuckets 10 2 5 = [10, 20, 40, 80, 160]` and
`exponentialBuckets 1 2 1 = [1]`. -/
theorem C9_exponential_buckets (start factor : ℚ) (count : ℕ)
    (hs : 0 < start) (hf : 1 < factor) (hc : 1 ≤ count) :
    (exponentialBuckets start factor count).length = count ∧
    (∀ i, i < count →
      (exponentialBuckets start factor count).getD i 0 = start * factor ^ i) ∧
    exponentialBuckets 10 2 5 = [10, 20, 40, 80, 160] ∧
    exponentialBuckets 1 2 1 = [1] := by
  have hlen : ∀ (n : ℕ) (cur f : ℚ), (exponentialBucketsAux cur f n).length = n := by
    intro n
    induction n with
    | zero => intro cur f; rfl
    | succ n ih => intro cur f; simp [exponentialBucketsAux, ih]
  have hget : ∀ (n : ℕ) (cur f : ℚ) (i : ℕ), i < n →
      (exponentialBucketsAux cur f n).getD i 0 = cur * f ^ i := by
    intro n
    induction n with
    | zero => intro cur f i hi; omega
    | succ n ih =>
      intro cur f i hi
      cases i with
      | zero => simp [exponentialBucketsAux]
      | succ i =>
        have := ih (cur * f) f i (by omega)
        simp only [exponentialBucketsAux, List.getD_cons_succ, this]
        ring
  exact ⟨hlen count start factor, fun i hi => hget count start factor i hi,
    by norm_num [exponentialBuckets, exponentialBucketsAux],
    by norm_num [exponentialBuckets, exponentialBucketsAux]⟩

/-- Witness for C9 at `start = 10`, `factor = 2`, `count = 5`. -/
theorem C9_witness :
    (exponentialBuckets 10 2 5).length = 5 ∧
    (exponentialBuckets 10 2 5).getD 3 0 = 10 * 2 ^ 3 := by
  have h := C9_exponential_buckets 10 2 5 (by norm_num) (by norm_num) (by norm_num)
  exact ⟨h.1, h.2.1 3 (by norm_num)⟩

/-- C8: a request whose URL path equals the configured metrics path is passed
through with no observation at all, whatever sub-metrics are configured. -/
theorem C8_metrics_path_skipped (cfg : RouterConfig) (metricsPath : String)
    (req : HTTPRequest) (fullPath : String) (status respSize startNow endNow : ℤ)
    (s : RouterState) (hurl : req.url = some metricsPath) :
    RouterMetrics.LogMetrics cfg metricsPath req fullPath status respSize
      startNow endNow s = some s := by
  simp [RouterMetrics.LogMetrics, hurl]

/-- Witness for C8: a request to "/metrics" leaves the state untouched. -/
theorem C8_witness :
    RouterMetrics.LogMetrics ⟨true, true, true, true⟩ "/metrics"
      ⟨some "/metrics", "GET", "HTTP/1.1", [], "h", -1⟩ "/metrics" 200 5 0 1
      RouterState.empty = some RouterState.empty :=
  C8_metrics_path_skipped ⟨true, true, true, true⟩ "/metrics"
    ⟨some "/metrics", "GET", "HTTP/1.1", [], "h", -1⟩ "/metrics" 200 5 0 1
    RouterState.empty rfl

/-- C6: with the consumed counter configured, a pub/sub `LogMetricsPost`
increments it with status `"failure"` and the supplied error code when
`ErrorCode` is non-empty, and with status `"success"` and an empty error-code
label when `ErrorCode` is empty. -/
theorem C6_consume_classification (cfg : PSConfig) (lv : PSMetricsLabelValues)
    (eventTxnData : Option EventTxnData) (s : PSState)
    (hc : cfg.totalMessagesConsumed = true) :
    (PSMetrics.LogMetricsPost cfg lv eventTxnData s).totalMessagesConsumed
      = s.totalMessagesConsumed ++
          [[lv.Source, lv.Entity, lv.EntityOpType,
            if lv.ErrorCode ≠ "" then Failure else Success, lv.ErrorCode]] := by
  rcases eventTxnData with _ | t <;>
    by_cases he : lv.ErrorCode = "" <;>
      simp [PSMetrics.LogMetricsPost, hc, he] <;> split_ifs <;> simp

/-- Witness for C6: success with empty code, failure with a non-empty code. -/
theorem C6_witness :
    (PSMetrics.LogMetricsPost ⟨true, false, false, false⟩ psLvErr none
        PSState.empty).totalMessagesConsumed
      = [["sub", "order", "create", Failure, "ERR_VALIDATION"]] :=
  C6_consume_classification ⟨true, false, false, false⟩ psLvErr none
    PSState.empty rfl

/-- C7: a pub/sub `LogMetricsPost` with null transaction data performs no
publish-side observation (published counter, publish-latency histogram and
publish-size histogram are unchanged) while the consume-side increment still
happens whenever the consumed counter is configured. -/
theorem C7_nil_txn_frame (cfg : PSConfig) (lv : PSMetricsLabelValues)
    (s : PSState) (eventTxnData : Option EventTxnData)
    (hnil : eventTxnData = none) :
    (PSMetrics.LogMetricsPost cfg lv eventTxnData s).totalMessagesPublished
        = s.totalMessagesPublished ∧
    (PSMetrics.LogMetricsPost cfg lv eventTxnData s).messagesPublishedLatencyMillis
        = s.messagesPublishedLatencyMillis ∧
    (PSMetrics.LogMetricsPost cfg lv eventTxnData s).messagesPublishedSizeBytes
        = s.messagesPublishedSizeBytes ∧
    (cfg.totalMessagesConsumed = true →
      (PSMetrics.LogMetricsPost cfg lv eventTxnData s).totalMessagesConsumed
        = s.totalMessagesConsumed ++
            [[lv.Source, lv.Entity, lv.EntityOpType,
              if lv.ErrorCode ≠ "" then Failure else Success, lv.ErrorCode]]) := by
  subst hnil
  refine ⟨?_, ?_, ?_, ?_⟩ <;>
    · first
      | (intro hc
         by_cases he : lv.ErrorCode = "" <;> simp [PSMetrics.LogMetricsPost, hc, he])
      | (by_cases he : lv.ErrorCode = "" <;>
          simp [PSMetrics.LogMetricsPost, he] <;> split_ifs <;> simp)

/-- Witness for C7 with the consumed counter configured. -/
theorem C7_witness :
    (PSMetrics.LogMetricsPost ⟨true, true, true, true⟩ psLv0 none
        PSState.empty).totalMessagesPublished = [] ∧
    (PSMetrics.LogMetricsPost ⟨true, true, true, true⟩ psLv0 none
        PSState.empty).totalMessagesConsumed
      = [["sub", "order", "create", Success, ""]] := by
  have h := C7_nil_txn_frame ⟨true, true, true, true⟩ psLv0 PSState.empty none rfl
  exact ⟨h.1, by simpa using h.2.2.2 rfl⟩

lemma router_char (cfg : RouterConfig) (mp : String) (req : HTTPRequest)
    (fp : String) (status respSize t0 t1 : ℤ) (s : RouterState) (p : String)
    (hurl : req.url = some p) (hp : p ≠ mp) :
    RouterMetrics.LogMetrics cfg mp req fp status respSize t0 t1 s =
      some { s with
        httpRequests := s.httpRequests ++
          (if cfg.httpRequests then
            [[req.method, "", fp, Total],
             [req.method, goItoa status, fp,
              if HTTPStatus2XXMinValue ≤ (parseItoa32 status).getD 0 ∧
                  (parseItoa32 status).getD 0 ≤ HTTPStatus2XXMaxValue then
                Success else Failure]] else []),
        httpRequestsLatencyMillis := s.httpRequestsLatencyMillis ++
          (if cfg.httpRequestsLatencyMillis then
            [([req.method, goItoa status, fp],
              ((t1 - t0 : ℤ) : ℚ) / ((1000000 : ℤ) : ℚ))] else []),
        httpRequestSizeBytes := s.httpRequestSizeBytes ++
          (if cfg.httpRequestSizeBytes then
            [([req.method, goItoa status, fp],
              ((computeApproximateRequestSize req : ℤ) : ℚ))] else []),
        httpResponseSizeBytes := s.httpResponseSizeBytes ++
          (if cfg.httpResponseSizeBytes then
            [([req.method, goItoa status, fp], (respSize : ℚ))] else []) } := by
  simp only [RouterMetrics.LogMetrics, hurl, if_neg hp]
  split_ifs <;> simp

/-- Core router counter behaviour on an instrumented request: one `"total"`
increment with an empty code label before the handler, then one increment
labelled with the actual code and classified `"success"` exactly on 2XX. -/
lemma router_httpRequests_delta (cfg : RouterConfig) (mp : String)
    (req : HTTPRequest) (fp : String) (status respSize t0 t1 : ℤ)
    (s : RouterState) (p : String) (hurl : req.url = some p) (hp : p ≠ mp)
    (hc : cfg.httpRequests = true) :
    (RouterMetrics.LogMetrics cfg mp req fp status respSize t0 t1 s).map
        RouterState.httpRequests
      = some (s.httpRequests ++
          [[req.method, "", fp, Total],
           [req.method, goItoa status, fp,
            if 200 ≤ status ∧ status ≤ 299 then Success else Failure]]) := by
  have hcond : (HTTPStatus2XXMinValue ≤ (parseItoa32 status).getD 0 ∧
      (parseItoa32 status).getD 0 ≤ HTTPStatus2XXMaxValue)
        ↔ (200 ≤ status ∧ status ≤ 299) := by
    unfold parseItoa32 HTTPStatus2XXMinValue HTTPStatus2XXMaxValue
    by_cases hr : -2147483648 ≤ status ∧ status ≤ 2147483647
    · simp only [if_pos hr, Option.getD_some]
    · simp only [if_neg hr, Option.getD_none]
      constructor
      · intro h; omega
      · intro h; exact absurd ⟨by omega, by omega⟩ hr
  by_cases h2 : 200 ≤ status ∧ status ≤ 299
  · simp only [RouterMetrics.LogMetrics, hurl, if_neg hp, hc, if_true,
      if_pos (hcond.mpr h2), if_pos h2]
    split_ifs <;> simp
  · simp only [RouterMetrics.LogMetrics, hurl, if_neg hp, hc, if_true,
      if_neg (fun hcc => h2 (hcond.mp hcc)), if_neg h2]
    split_ifs <;> simp

/-- C4: with the http-requests counter configured and the path distinct from
the metrics path, a final status in `[200, 299]` increments the counter under
status `"success"`, and every other final status (1XX, 3XX, 4XX, 5XX,
out-of-range or unparseable) increments it under `"failure"`. -/
theorem C4_router_classification (cfg : RouterConfig) (mp : String)
    (req : HTTPRequest) (fp : String) (status respSize t0 t1 : ℤ)
    (s : RouterState) (p : String) (hurl : req.url = some p) (hp : p ≠ mp)
    (hc : cfg.httpRequests = true) :
    (RouterMetrics.LogMetrics cfg mp req fp status respSize t0 t1 s).map
        RouterState.httpRequests
      = some (s.httpRequests ++ [[req.method, "", fp, Total]] ++
          [[req.method, goItoa status, fp,
            if 200 ≤ status ∧ status ≤ 299 then Success else Failure]]) := by
  rw [router_httpRequests_delta cfg mp req fp status respSize t0 t1 s p hurl hp hc]
  simp

/-- Witness for C4: a 503 response increments the `"failure"` series. -/
theorem C4_witness :
    (RouterMetrics.LogMetrics ⟨true, false, false, false⟩ "/metrics" req0 "/a"
        503 5 0 1 RouterState.empty).map RouterState.httpRequests
      = some ([["GET", "", "/a", Total]] ++ [["GET", goItoa 503, "/a",
          if 200 ≤ (503 : ℤ) ∧ (503 : ℤ) ≤ 299 then Success else Failure]]) := by
  have h := C4_router_classification ⟨true, false, false, false⟩ "/metrics" req0
    "/a" 503 5 0 1 RouterState.empty "/a" rfl (by decide) rfl
  simpa using h

/-- C10: the pre-processing `"total"` increment carries an empty response-code
label while the post-processing outcome increment carries the stringified
actual status code, which is never empty — so the two increments land in
different code-label series, yet agree (one apiece) once aggregated across
the code label. -/
theorem C10_total_vs_outcome_series (cfg : RouterConfig) (mp : String)
    (req : HTTPRequest) (fp : String) (status respSize t0 t1 : ℤ)
    (s : RouterState) (p : String) (hurl : req.url = some p) (hp : p ≠ mp)
    (hc : cfg.httpRequests = true) :
    goItoa status ≠ "" ∧
    (RouterMetrics.LogMetrics cfg mp req fp status respSize t0 t1 s).map
        RouterState.httpRequests
      = some (s.httpRequests ++
          [[req.method, "", fp, Total],
           [req.method, goItoa status, fp,
            if 200 ≤ status ∧ status ≤ 299 then Success else Failure]]) ∧
    statusCount 3 Total
        [[req.method, "", fp, Total],
         [req.method, goItoa status, fp,
          if 200 ≤ status ∧ status ≤ 299 then Success else Failure]] = 1 ∧
    statusCount 3 Success
        [[req.method, "", fp, Total],
         [req.method, goItoa status, fp,
          if 200 ≤ status ∧ status ≤ 299 then Success else Failure]] +
      statusCount 3 Failure
        [[req.method, "", fp, Total],
         [req.method, goItoa status, fp,
          if 200 ≤ status ∧ status ≤ 299 then Success else Failure]] = 1 := by
  refine ⟨goItoa_ne_empty status,
    router_httpRequests_delta cfg mp req fp status respSize t0 t1 s p hurl hp hc,
    ?_, ?_⟩ <;>
  · by_cases h2 : 200 ≤ status ∧ status ≤ 299 <;>
      simp [h2, statusCount_cons, statusCount, Total, Success, Failure]

/-- Witness for C10 with a 204 response. -/
theorem C10_witness :
    goItoa 204 ≠ "" ∧
    (RouterMetrics.LogMetrics ⟨true, false, false, false⟩ "/metrics" req0 "/a"
        204 5 0 1 RouterState.empty).map RouterState.httpRequests
      = some ([] ++ [["GET", "", "/a", Total],
          ["GET", goItoa 204, "/a",
           if 200 ≤ (204 : ℤ) ∧ (204 : ℤ) ≤ 299 then Success else Failure]]) :=
  have h := C10_total_vs_outcome_series ⟨true, false, false, false⟩ "/metrics"
    req0 "/a" 204 5 0 1 RouterState.empty "/a" rfl (by decide) rfl
  ⟨h.1, h.2.1⟩

/-- C3 (amended): the Database, Cron-Job and Pub/Sub `LogMetricsPre` return
the current wall-clock instant for every label-value input and configuration
(all sub-metrics nil included); the Downstream-Service `LogMetricsPre`,
however, returns no value at all — its entire result is the updated state and
is independent of the clock. -/
theorem C3_pre_returns_now :
    (∀ (cfg : DBConfig) lv s (now : ℤ),
      (DBMetrics.LogMetricsPre cfg lv s now).2 = now) ∧
    (∀ (cfg : CronJobConfig) lv s (now : ℤ),
      (CronJobMetrics.LogMetricsPre cfg lv s now).2 = now) ∧
    (∀ (cfg : PSConfig) lv s (now : ℤ),
      (PSMetrics.LogMetricsPre cfg lv s now).2 = now) ∧
    (∀ (cfg : DSConfig) lv s (n1 n2 : ℤ),
      PromDownstreamServiceMetrics.LogMetricsPre cfg lv s n1
        = PromDownstreamServiceMetrics.LogMetricsPre cfg lv s n2) :=
  ⟨fun _ _ _ _ => rfl, fun _ _ _ _ => rfl, fun _ _ _ _ => rfl,
   fun _ _ _ _ _ => rfl⟩

/-- Counterexample to C3 as stated: the claim includes the Downstream-Service
domain, whose `LogMetricsPre` has no return value.  Its complete result is
identical whether the clock reads 5 or 7 — so it cannot return the current
wall-clock instant — whereas the Database `LogMetricsPre` result does change
with the clock, returning exactly that instant. -/
theorem C3_counterexample :
    PromDownstreamServiceMetrics.LogMetricsPre ⟨true, true, true, true⟩ dsLv0
        DSState.empty 5
      = PromDownstreamServiceMetrics.LogMetricsPre ⟨true, true, true, true⟩
          dsLv0 DSState.empty 7 ∧
    (DBMetrics.LogMetricsPre ⟨true, true⟩ dbLv0 DBState.empty 5).2
      ≠ (DBMetrics.LogMetricsPre ⟨true, true⟩ dbLv0 DBState.empty 7).2 :=
  ⟨rfl, by decide⟩

/-- C2 (amended): latency observations per domain.  Database and Cron Job
observe `now - startMarker` truncated to a whole number of milliseconds,
non-negative whenever the start marker does not postdate the clock.
Downstream Service and Pub/Sub publish observe the caller-supplied duration
(`ResponseTime` / `TimeTakenToPublish`) truncated to whole milliseconds,
non-negative exactly when the supplied duration is.  The Router observes
`(now - startMarker) / 10^6` exactly — in general a fractional number of
milliseconds — non-negative whenever the start does not postdate the end. -/
theorem C2_latency_observation :
    (∀ (cfg : DBConfig) (appErr : Bool) lv (t : ℤ) s (now : ℤ),
      cfg.operationsLatencyMillis = true →
      (DBMetrics.LogMetricsPost cfg appErr lv t s now).operationsLatencyMillis
        = s.operationsLatencyMillis ++
            [([lv.OpType, lv.Source, lv.AdEntity, lv.IsTxn],
              ((goMilliseconds (now - t) : ℤ) : ℚ))] ∧
      (∃ k : ℤ, ((goMilliseconds (now - t) : ℤ) : ℚ) = (k : ℚ)) ∧
      (t ≤ now → 0 ≤ ((goMilliseconds (now - t) : ℤ) : ℚ))) ∧
    (∀ (cfg : CronJobConfig) (appErr : Bool) lv (t : ℤ) s (now : ℤ),
      cfg.jobExecutionLatencyMillis = true →
      (CronJobMetrics.LogMetricsPost cfg appErr lv t s now).jobExecutionLatencyMillis
        = s.jobExecutionLatencyMillis ++
            [([lv.JobName], ((goMilliseconds (now - t) : ℤ) : ℚ))] ∧
      (∃ k : ℤ, ((goMilliseconds (now - t) : ℤ) : ℚ) = (k : ℚ)) ∧
      (t ≤ now → 0 ≤ ((goMilliseconds (now - t) : ℤ) : ℚ))) ∧
    (∀ (cfg : DSConfig) (b : Bool) lv (m : HTTPMetrics) s,
      cfg.httpRequestsLatencyMillis = true →
      (PromDownstreamServiceMetrics.LogMetricsPost cfg b lv m s).httpRequestsLatencyMillis
        = s.httpRequestsLatencyMillis ++
            [([lv.Name, m.Method, goItoa m.Code, lv.APIIdentifier],
              ((goMilliseconds m.ResponseTime : ℤ) : ℚ))] ∧
      (∃ k : ℤ, ((goMilliseconds m.ResponseTime : ℤ) : ℚ) = (k : ℚ)) ∧
      (0 ≤ m.ResponseTime → 0 ≤ ((goMilliseconds m.ResponseTime : ℤ) : ℚ))) ∧
    (∀ (cfg : PSConfig) lv (t : EventTxnData) s,
      cfg.messagesPublishedLatencyMillis = true →
      (PSMetrics.LogMetricsPost cfg lv (some t) s).messagesPublishedLatencyMillis
        = s.messagesPublishedLatencyMillis ++
            [([lv.Entity, lv.EntityOpType],
              ((goMilliseconds t.TimeTakenToPublish : ℤ) : ℚ))] ∧
      (∃ k : ℤ, ((goMilliseconds t.TimeTakenToPublish : ℤ) : ℚ) = (k : ℚ)) ∧
      (0 ≤ t.TimeTakenToPublish →
        0 ≤ ((goMilliseconds t.TimeTakenToPublish : ℤ) : ℚ))) ∧
    (∀ (cfg : RouterConfig) (mp : String) req (fp : String)
        (status respSize t0 t1 : ℤ) s (p : String),
      cfg.httpRequestsLatencyMillis = true → req.url = some p → p ≠ mp →
      (RouterMetrics.LogMetrics cfg mp req fp status respSize t0 t1 s).map
          RouterState.httpRequestsLatencyMillis
        = some (s.httpRequestsLatencyMillis ++
            [([req.method, goItoa status, fp],
              ((t1 - t0 : ℤ) : ℚ) / ((1000000 : ℤ) : ℚ))]) ∧
      (t0 ≤ t1 → 0 ≤ ((t1 - t0 : ℤ) : ℚ) / ((1000000 : ℤ) : ℚ))) := by
  have hnn : ∀ d : ℤ, 0 ≤ d → (0 : ℚ) ≤ ((goMilliseconds d : ℤ) : ℚ) := by
    intro d hd
    have : (0 : ℤ) ≤ goMilliseconds d := Int.tdiv_nonneg hd (by norm_num)
    exact_mod_cast this
  refine ⟨?_, ?_, ?_, ?_, ?_⟩
  · intro cfg appErr lv t s now h
    refine ⟨?_, ⟨goMilliseconds (now - t), rfl⟩, fun ht => hnn _ (by omega)⟩
    simp only [DBMetrics.LogMetricsPost, h, if_true]
    split_ifs <;> simp
  · intro cfg appErr lv t s now h
    refine ⟨?_, ⟨goMilliseconds (now - t), rfl⟩, fun ht => hnn _ (by omega)⟩
    simp only [CronJobMetrics.LogMetricsPost, h, if_true]
    split_ifs <;> simp
  · intro cfg b lv m s h
    refine ⟨?_, ⟨goMilliseconds m.ResponseTime, rfl⟩, fun ht => hnn _ ht⟩
    simp only [PromDownstreamServiceMetrics.LogMetricsPost, h, if_true]
    split_ifs <;> simp
  · intro cfg lv t s h
    refine ⟨?_, ⟨goMilliseconds t.TimeTakenToPublish, rfl⟩, fun ht => hnn _ ht⟩
    simp only [PSMetrics.LogMetricsPost, h, if_true]
    split_ifs <;> simp
  · intro cfg mp req fp status respSize t0 t1 s p h hurl hp
    constructor
    · simp only [RouterMetrics.LogMetrics, hurl, if_neg hp, h, if_true]
      split_ifs <;> simp
    · intro ht
      apply div_nonneg
      · have : (0 : ℤ) ≤ t1 - t0 := by omega
        exact_mod_cast this
      · norm_num

/-- Counterexample to C2 as stated: the claim includes the Router domain, but
the Router's latency observation is `float64(elapsed)/float64(Millisecond)` —
a fractional count of milliseconds.  An instrumented request taking
1,500,000 ns observes exactly `3/2`, which is not a whole (integer) number of
milliseconds. -/
theorem C2_counterexample :
    (RouterMetrics.LogMetrics routerCfgLatOnly "/metrics" req0 "/a" 200 5 0
        1500000 RouterState.empty).map RouterState.httpRequestsLatencyMillis
      = some [(["GET", goItoa 200, "/a"], (3 : ℚ) / 2)] ∧
    ¬ ∃ k : ℤ, ((3 : ℚ) / 2 = (k : ℚ)) := by
  constructor
  · rw [router_char routerCfgLatOnly "/metrics" req0 "/a" 200 5 0 1500000
      RouterState.empty "/a" rfl (by decide)]
    norm_num [RouterState.empty, routerCfgLatOnly, req0]
  · rintro ⟨k, hk⟩
    have hden : ((3 : ℚ) / 2).den = 2 := by norm_num
    rw [hk, Rat.den_intCast] at hden
    omega

/-- Witness for C2 (Database conjunct) at start 2, clock 7: the histogram
receives `(7 - 2).tdiv 10^6 = 0`, a non-negative whole number. -/
theorem C2_witness :
    (DBMetrics.LogMetricsPost ⟨true, true⟩ false dbLv0 2 DBState.empty
        7).operationsLatencyMillis
      = [(["select", "repo", "users", "false"],
          ((goMilliseconds (7 - 2) : ℤ) : ℚ))] ∧
    (0 : ℚ) ≤ ((goMilliseconds ((7 : ℤ) - 2) : ℤ) : ℚ) := by
  have h := C2_latency_observation.1 ⟨true, true⟩ false dbLv0 2 DBState.empty 7 rfl
  exact ⟨h.1, h.2.2 (by norm_num)⟩

/-- C1 (amended): for every domain metric set constructed with a nil config
for a sub-metric, each of `LogMetricsPre`, `LogMetricsPost` and `LogMetrics`
is a no-op for that sub-metric — zero observations, no panic — with the one
exception of `DecrementAppErrorCount`, which does not guard the gauge and
panics (nil dereference) whenever the gauge was not configured. -/
theorem C1_nil_submetric_noop :
    (∀ (cfg : DBConfig) lv s (now : ℤ) (appErr : Bool) (t : ℤ),
      (cfg.operationsTotal = false →
        (DBMetrics.LogMetricsPre cfg lv s now).1 = s ∧
        (DBMetrics.LogMetricsPost cfg appErr lv t s now).operationsTotal
          = s.operationsTotal) ∧
      (cfg.operationsLatencyMillis = false →
        (DBMetrics.LogMetricsPost cfg appErr lv t s now).operationsLatencyMillis
          = s.operationsLatencyMillis)) ∧
    (∀ (cfg : CronJobConfig) lv s (now : ℤ) (appErr : Bool) (t : ℤ),
      (cfg.jobExecutionTotal = false →
        (CronJobMetrics.LogMetricsPre cfg lv s now).1 = s ∧
        (CronJobMetrics.LogMetricsPost cfg appErr lv t s now).jobExecutionTotal
          = s.jobExecutionTotal) ∧
      (cfg.jobExecutionLatencyMillis = false →
        (CronJobMetrics.LogMetricsPost cfg appErr lv t s now).jobExecutionLatencyMillis
          = s.jobExecutionLatencyMillis)) ∧
    (∀ (cfg : DSConfig) lv s (now : ℤ) (b : Bool) (m : HTTPMetrics),
      (cfg.httpRequests = false →
        PromDownstreamServiceMetrics.LogMetricsPre cfg lv s now = s ∧
        (PromDownstreamServiceMetrics.LogMetricsPost cfg b lv m s).httpRequests
          = s.httpRequests) ∧
      (cfg.httpRequestsLatencyMillis = false →
        (PromDownstreamServiceMetrics.LogMetricsPost cfg b lv m s).httpRequestsLatencyMillis
          = s.httpRequestsLatencyMillis) ∧
      (cfg.httpRequestSizeBytes = false →
        (PromDownstreamServiceMetrics.LogMetricsPost cfg b lv m s).httpRequestSizeBytes
          = s.httpRequestSizeBytes) ∧
      (cfg.httpResponseSizeBytes = false →
        (PromDownstreamServiceMetrics.LogMetricsPost cfg b lv m s).httpResponseSizeBytes
          = s.httpResponseSizeBytes)) ∧
    (∀ (cfg : PSConfig) lv s (now : ℤ) (txn : Option EventTxnData),
      (cfg.totalMessagesPublished = false →
        (PSMetrics.LogMetricsPre cfg lv s now).1.totalMessagesPublished
          = s.totalMessagesPublished ∧
        (PSMetrics.LogMetricsPost cfg lv txn s).totalMessagesPublished
          = s.totalMessagesPublished) ∧
      (cfg.totalMessagesConsumed = false →
        (PSMetrics.LogMetricsPre cfg lv s now).1.totalMessagesConsumed
          = s.totalMessagesConsumed ∧
        (PSMetrics.LogMetricsPost cfg lv txn s).totalMessagesConsumed
          = s.totalMessagesConsumed) ∧
      (cfg.messagesPublishedLatencyMillis = false →
        (PSMetrics.LogMetricsPost cfg lv txn s).messagesPublishedLatencyMillis
          = s.messagesPublishedLatencyMillis) ∧
      (cfg.messagesPublishedSizeBytes = false →
        (PSMetrics.LogMetricsPost cfg lv txn s).messagesPublishedSizeBytes
          = s.messagesPublishedSizeBytes)) ∧
    (∀ (cfg : RouterConfig) (mp : String) req (fp : String)
        (status respSize t0 t1 : ℤ) s (p : String), req.url = some p →
      (RouterMetrics.LogMetrics cfg mp req fp status respSize t0 t1 s).isSome
        = true ∧
      (cfg.httpRequests = false →
        (RouterMetrics.LogMetrics cfg mp req fp status respSize t0 t1 s).map
          RouterState.httpRequests = some s.httpRequests) ∧
      (cfg.httpRequestsLatencyMillis = false →
        (RouterMetrics.LogMetrics cfg mp req fp status respSize t0 t1 s).map
          RouterState.httpRequestsLatencyMillis = some s.httpRequestsLatencyMillis) ∧
      (cfg.httpRequestSizeBytes = false →
        (RouterMetrics.LogMetrics cfg mp req fp status respSize t0 t1 s).map
          RouterState.httpRequestSizeBytes = some s.httpRequestSizeBytes) ∧
      (cfg.httpResponseSizeBytes = false →
        (RouterMetrics.LogMetrics cfg mp req fp status respSize t0 t1 s).map
          RouterState.httpResponseSizeBytes = some s.httpResponseSizeBytes)) ∧
    (∀ (codes : List String) s (code : String),
      AppMetrics.LogMetrics ⟨false⟩ codes s = s ∧
      AppMetrics.DecrementAppErrorCount ⟨false⟩ code s = none) := by
  refine ⟨?_, ?_, ?_, ?_, ?_, ?_⟩
  · intro cfg lv s now appErr t
    constructor
    · intro h
      constructor
      · simp [DBMetrics.LogMetricsPre, h]
      · simp only [DBMetrics.LogMetricsPost, h]
        split_ifs <;> simp_all
    · intro h
      simp only [DBMetrics.LogMetricsPost, h]
      split_ifs <;> simp_all
  · intro cfg lv s now appErr t
    constructor
    · intro h
      constructor
      · simp [CronJobMetrics.LogMetricsPre, h]
      · simp only [CronJobMetrics.LogMetricsPost, h]
        split_ifs <;> simp_all
    · intro h
      simp only [CronJobMetrics.LogMetricsPost, h]
      split_ifs <;> simp_all
  · intro cfg lv s now b m
    refine ⟨fun h => ⟨?_, ?_⟩, fun h => ?_, fun h => ?_, fun h => ?_⟩ <;>
      simp [dsPre_char, dsPost_char, h]
  · intro cfg lv s now txn
    refine ⟨fun h => ⟨?_, ?_⟩, fun h => ⟨?_, ?_⟩, fun h => ?_, fun h => ?_⟩ <;>
      rcases txn with _ | t <;>
        simp [psPre_char, psPost_char_none, psPost_char_some, h]
  · intro cfg mp req fp status respSize t0 t1 s p hurl
    by_cases hp : p = mp
    · subst hp
      refine ⟨?_, fun h => ?_, fun h => ?_, fun h => ?_, fun h => ?_⟩ <;>
        simp [RouterMetrics.LogMetrics, hurl]
    · refine ⟨?_, fun h => ?_, fun h => ?_, fun h => ?_, fun h => ?_⟩ <;>
        simp [router_char cfg mp req fp status respSize t0 t1 s p hurl hp, *]
  · intro codes s code
    exact ⟨by simp [AppMetrics.LogMetrics], by simp [AppMetrics.DecrementAppErrorCount]⟩

/-- Counterexample to C1 as stated: with a nil gauge config,
`DecrementAppErrorCount` dereferences the absent metric and panics (`none`),
so not every logging call on a nil sub-metric is a panic-free no-op. -/
theorem C1_counterexample :
    AppMetrics.DecrementAppErrorCount ⟨false⟩ "ERR_DB_CONNECTION" AppState.empty
      = none := by
  simp [AppMetrics.DecrementAppErrorCount]

/-- Witness for C1: a database metric set with both sub-metrics nil leaves
the state untouched on `LogMetricsPre`. -/
theorem C1_witness :
    (DBMetrics.LogMetricsPre ⟨false, false⟩ dbLv0 DBState.empty 0).1
      = DBState.empty :=
  ((C1_nil_submetric_noop.1 ⟨false, false⟩ dbLv0 DBState.empty 0 false 0).1 rfl).1

/-! ### Pre/post sequence characterizations for the counting invariant -/

lemma dbPreIter_char (cfg : DBConfig) (lv : DBMetricsLabelValues)
    (h : cfg.operationsTotal = true) :
    ∀ (n : ℕ) (s : DBState), (dbPreIter cfg lv n s).operationsTotal
      = s.operationsTotal ++
          List.replicate n [lv.OpType, lv.Source, lv.AdEntity, lv.IsTxn, Total] := by
  intro n
  induction n with
  | zero => intro s; simp [dbPreIter]
  | succ n ih =>
    intro s
    rw [show dbPreIter cfg lv (n + 1) s
        = dbPreIter cfg lv n (DBMetrics.LogMetricsPre cfg lv s 0).1 from rfl, ih]
    simp [dbPre_char, h, List.replicate_succ]

lemma dbPostFold_char (cfg : DBConfig) (lv : DBMetricsLabelValues)
    (h : cfg.operationsTotal = true) :
    ∀ (errs : List Bool) (s : DBState),
      ((errs.foldl (fun st e => DBMetrics.LogMetricsPost cfg e lv 0 st 0) s)).operationsTotal
        = s.operationsTotal ++ errs.map (fun e =>
            [lv.OpType, lv.Source, lv.AdEntity, lv.IsTxn,
             if e then Failure else Success]) := by
  intro errs
  induction errs with
  | nil => intro s; simp
  | cons e t ih =>
    intro s
    simp only [List.foldl_cons]
    rw [ih]
    simp [dbPost_char, h]

lemma cronPreIter_char (cfg : CronJobConfig) (lv : CronJobMetricsLabelValues)
    (h : cfg.jobExecutionTotal = true) :
    ∀ (n : ℕ) (s : CronJobState), (cronPreIter cfg lv n s).jobExecutionTotal
      = s.jobExecutionTotal ++ List.replicate n [lv.JobName, Total] := by
  intro n
  induction n with
  | zero => intro s; simp [cronPreIter]
  | succ n ih =>
    intro s
    rw [show cronPreIter cfg lv (n + 1) s
        = cronPreIter cfg lv n (CronJobMetrics.LogMetricsPre cfg lv s 0).1 from rfl, ih]
    simp [cronPre_char, h, List.replicate_succ]

lemma cronPostFold_char (cfg : CronJobConfig) (lv : CronJobMetricsLabelValues)
    (h : cfg.jobExecutionTotal = true) :
    ∀ (errs : List Bool) (s : CronJobState),
      ((errs.foldl (fun st e => CronJobMetrics.LogMetricsPost cfg e lv 0 st 0) s)).jobExecutionTotal
        = s.jobExecutionTotal ++ errs.map (fun e =>
            [lv.JobName, if e then Failure else Success]) := by
  intro errs
  induction errs with
  | nil => intro s; simp
  | cons e t ih =>
    intro s
    simp only [List.foldl_cons]
    rw [ih]
    simp [cronPost_char, h]

lemma dsPreIter_char (cfg : DSConfig) (lv : DownstreamServiceMetricsLabelValues)
    (h : cfg.httpRequests = true) :
    ∀ (n : ℕ) (s : DSState), (dsPreIter cfg lv n s).httpRequests
      = s.httpRequests ++
          List.replicate n [lv.Name, lv.HTTPMethod, "", lv.APIIdentifier, Total] := by
  intro n
  induction n with
  | zero => intro s; simp [dsPreIter]
  | succ n ih =>
    intro s
    rw [show dsPreIter cfg lv (n + 1) s
        = dsPreIter cfg lv n (PromDownstreamServiceMetrics.LogMetricsPre cfg lv s 0) from rfl, ih]
    simp [dsPre_char, h, List.replicate_succ]

lemma dsPostFold_char (cfg : DSConfig) (lv : DownstreamServiceMetricsLabelValues)
    (m : HTTPMetrics) (h : cfg.httpRequests = true) :
    ∀ (succs : List Bool) (s : DSState),
      ((succs.foldl (fun st b => PromDownstreamServiceMetrics.LogMetricsPost cfg b lv m st) s)).httpRequests
        = s.httpRequests ++ succs.map (fun b =>
            [lv.Name, m.Method, goItoa m.Code, lv.APIIdentifier,
             if b then Success else Failure]) := by
  intro succs
  induction succs with
  | nil => intro s; simp
  | cons b t ih =>
    intro s
    simp only [List.foldl_cons]
    rw [ih]
    simp [dsPost_char, h]

lemma psPreIter_published (cfg : PSConfig) (lv : PSMetricsLabelValues)
    (h : cfg.totalMessagesPublished = true) :
    ∀ (n : ℕ) (s : PSState), (psPreIter cfg lv n s).totalMessagesPublished
      = s.totalMessagesPublished ++
          List.replicate n [lv.Entity, lv.EntityOpType, Total] := by
  intro n
  induction n with
  | zero => intro s; simp [psPreIter]
  | succ n ih =>
    intro s
    rw [show psPreIter cfg lv (n + 1) s
        = psPreIter cfg lv n (PSMetrics.LogMetricsPre cfg lv s 0).1 from rfl, ih]
    by_cases hc : cfg.totalMessagesConsumed <;>
      simp [psPre_char, h, hc, List.replicate_succ]

lemma psPreIter_consumed (cfg : PSConfig) (lv : PSMetricsLabelValues)
    (h : cfg.totalMessagesConsumed = true) :
    ∀ (n : ℕ) (s : PSState), (psPreIter cfg lv n s).totalMessagesConsumed
      = s.totalMessagesConsumed ++
          List.replicate n [lv.Source, lv.Entity, lv.EntityOpType, Total, ""] := by
  intro n
  induction n with
  | zero => intro s; simp [psPreIter]
  | succ n ih =>
    intro s
    rw [show psPreIter cfg lv (n + 1) s
        = psPreIter cfg lv n (PSMetrics.LogMetricsPre cfg lv s 0).1 from rfl, ih]
    by_cases hp : cfg.totalMessagesPublished <;>
      simp [psPre_char, h, hp, List.replicate_succ]

lemma psPostFold_consumed (cfg : PSConfig) (lv : PSMetricsLabelValues)
    (h : cfg.totalMessagesConsumed = true) :
    ∀ (txns : List (Option EventTxnData)) (s : PSState),
      ((txns.foldl (fun st t => PSMetrics.LogMetricsPost cfg lv t st) s)).totalMessagesConsumed
        = s.totalMessagesConsumed ++ List.replicate txns.length
            [lv.Source, lv.Entity, lv.EntityOpType,
             if lv.ErrorCode ≠ "" then Failure else Success, lv.ErrorCode] := by
  intro txns
  induction txns with
  | nil => intro s; simp
  | cons t rest ih =>
    intro s
    simp only [List.foldl_cons]
    rw [ih]
    rcases t with _ | t <;>
      simp [psPost_char_none, psPost_char_some, h, List.replicate_succ]

lemma psPostFold_published (cfg : PSConfig) (lv : PSMetricsLabelValues)
    (h : cfg.totalMessagesPublished = true) :
    ∀ (txns : List (Option EventTxnData)) (s : PSState),
      ((txns.foldl (fun st t => PSMetrics.LogMetricsPost cfg lv t st) s)).totalMessagesPublished
        = s.totalMessagesPublished ++ txns.filterMap (fun t? =>
            t?.map (fun t =>
              [lv.Entity, lv.EntityOpType,
               if t.IsPublished then Success else Failure])) := by
  intro txns
  induction txns with
  | nil => intro s; simp
  | cons t rest ih =>
    intro s
    simp only [List.foldl_cons]
    rw [ih]
    rcases t with _ | t <;>
      simp [psPost_char_none, psPost_char_some, h]

lemma pub_filterMap_statusCount_ne (lv : PSMetricsLabelValues) (st : String)
    (hS : st ≠ Success) (hF : st ≠ Failure) :
    ∀ (txns : List (Option EventTxnData)),
      statusCount 2 st (txns.filterMap (fun t? =>
        t?.map (fun t =>
          [lv.Entity, lv.EntityOpType,
           if t.IsPublished then Success else Failure]))) = 0 := by
  intro txns
  induction txns with
  | nil => simp [statusCount]
  | cons t rest ih =>
    rcases t with _ | t
    · simpa using ih
    · rw [List.filterMap_cons]
      simp only [Option.map_some']
      rw [statusCount_cons, ih]
      cases ht : t.IsPublished <;>
        simp [ht, Ne.symm hS, Ne.symm hF]

lemma pub_filterMap_statusCount_sum (lv : PSMetricsLabelValues) :
    ∀ (txns : List (Option EventTxnData)), (∀ t ∈ txns, t.isSome) →
      statusCount 2 Success (txns.filterMap (fun t? =>
          t?.map (fun t =>
            [lv.Entity, lv.EntityOpType,
             if t.IsPublished then Success else Failure]))) +
        statusCount 2 Failure (txns.filterMap (fun t? =>
          t?.map (fun t =>
            [lv.Entity, lv.EntityOpType,
             if t.IsPublished then Success else Failure]))) = txns.length := by
  intro txns
  induction txns with
  | nil => intro _; simp [statusCount]
  | cons t rest ih =>
    intro hall
    rcases t with _ | t
    · exact absurd (hall none (by simp)) (by simp)
    · rw [List.filterMap_cons]
      simp only [Option.map_some']
      rw [statusCount_cons, statusCount_cons]
      have hrest := ih (fun x hx => hall x (List.mem_cons_of_mem _ hx))
      have hne : Success ≠ Failure := by decide
      cases ht : t.IsPublished <;>
        simp [ht, hne, Ne.symm hne] <;> omega

/-- C5 (amended): starting from zero counts, `N` `Pre` calls followed by `N`
`Post` calls with matching label values yield `N` under status `"total"` and
`N` as the sum of `"success"` and `"failure"` for the Database, Cron-Job and
Downstream-Service counters, and for the Pub/Sub consumed counter.  For the
Pub/Sub published counter, `"total"` always reaches `N` but the
success/failure sum reaches `N` only when every `Post` carries non-null
transaction data (a nil-transaction `Post` performs no publish-side
increment). -/
theorem C5_counter_invariant :
    (∀ (cfg : DBConfig) lv (errs : List Bool), cfg.operationsTotal = true →
      statusCount 4 Total (dbRun cfg lv errs DBState.empty).operationsTotal
        = errs.length ∧
      statusCount 4 Success (dbRun cfg lv errs DBState.empty).operationsTotal
        + statusCount 4 Failure (dbRun cfg lv errs DBState.empty).operationsTotal
        = errs.length) ∧
    (∀ (cfg : CronJobConfig) lv (errs : List Bool), cfg.jobExecutionTotal = true →
      statusCount 1 Total (cronRun cfg lv errs CronJobState.empty).jobExecutionTotal
        = errs.length ∧
      statusCount 1 Success (cronRun cfg lv errs CronJobState.empty).jobExecutionTotal
        + statusCount 1 Failure (cronRun cfg lv errs CronJobState.empty).jobExecutionTotal
        = errs.length) ∧
    (∀ (cfg : DSConfig) lv (m : HTTPMetrics) (succs : List Bool),
      cfg.httpRequests = true →
      statusCount 4 Total (dsRun cfg lv m succs DSState.empty).httpRequests
        = succs.length ∧
      statusCount 4 Success (dsRun cfg lv m succs DSState.empty).httpRequests
        + statusCount 4 Failure (dsRun cfg lv m succs DSState.empty).httpRequests
        = succs.length) ∧
    (∀ (cfg : PSConfig) lv (txns : List (Option EventTxnData)),
      cfg.totalMessagesConsumed = true →
      statusCount 3 Total (psRun cfg lv txns PSState.empty).totalMessagesConsumed
        = txns.length ∧
      statusCount 3 Success (psRun cfg lv txns PSState.empty).totalMessagesConsumed
        + statusCount 3 Failure (psRun cfg lv txns PSState.empty).totalMessagesConsumed
        = txns.length) ∧
    (∀ (cfg : PSConfig) lv (txns : List (Option EventTxnData)),
      cfg.totalMessagesPublished = true →
      statusCount 2 Total (psRun cfg lv txns PSState.empty).totalMessagesPublished
        = txns.length ∧
      ((∀ t ∈ txns, t.isSome) →
        statusCount 2 Success (psRun cfg lv txns PSState.empty).totalMessagesPublished
          + statusCount 2 Failure (psRun cfg lv txns PSState.empty).totalMessagesPublished
          = txns.length)) := by
  refine ⟨?_, ?_, ?_, ?_, ?_⟩
  · intro cfg lv errs h
    have hrun : (dbRun cfg lv errs DBState.empty).operationsTotal
        = List.replicate errs.length
            [lv.OpType, lv.Source, lv.AdEntity, lv.IsTxn, Total]
          ++ errs.map (fun e =>
              [lv.OpType, lv.Source, lv.AdEntity, lv.IsTxn,
               if e then Failure else Success]) := by
      show ((errs.foldl _ (dbPreIter cfg lv errs.length DBState.empty))).operationsTotal = _
      rw [dbPostFold_char cfg lv h errs, dbPreIter_char cfg lv h]
      simp [DBState.empty]
    have hSF : ∀ b : Bool,
        ([lv.OpType, lv.Source, lv.AdEntity, lv.IsTxn,
          if b then Failure else Success] : List String).getD 4 ""
          = Success ∨
        ([lv.OpType, lv.Source, lv.AdEntity, lv.IsTxn,
          if b then Failure else Success] : List String).getD 4 ""
          = Failure := by
      intro b; cases b
      · exact Or.inl rfl
      · exact Or.inr rfl
    have hMapNe : ∀ b : Bool,
        ([lv.OpType, lv.Source, lv.AdEntity, lv.IsTxn,
          if b then Failure else Success] : List String).getD 4 "" ≠ Total := by
      intro b; cases b
      · show Success ≠ Total; decide
      · show Failure ≠ Total; decide
    have hTT : ([lv.OpType, lv.Source, lv.AdEntity, lv.IsTxn,
        Total] : List String).getD 4 "" = Total := rfl
    have hTS : ([lv.OpType, lv.Source, lv.AdEntity, lv.IsTxn,
        Total] : List String).getD 4 "" ≠ Success := by
      show Total ≠ Success; decide
    have hTF : ([lv.OpType, lv.Source, lv.AdEntity, lv.IsTxn,
        Total] : List String).getD 4 "" ≠ Failure := by
      show Total ≠ Failure; decide
    constructor
    · rw [hrun, statusCount_append, statusCount_replicate, if_pos hTT,
        statusCount_map_ne 4 Total _ hMapNe errs]
      omega
    · have hsum := statusCount_map_sum 4 _ hSF errs
      rw [hrun, statusCount_append, statusCount_append,
        statusCount_replicate, statusCount_replicate, if_neg hTS, if_neg hTF]
      omega
  · intro cfg lv errs h
    have hrun : (cronRun cfg lv errs CronJobState.empty).jobExecutionTotal
        = List.replicate errs.length [lv.JobName, Total]
          ++ errs.map (fun e => [lv.JobName, if e then Failure else Success]) := by
      show ((errs.foldl _ (cronPreIter cfg lv errs.length CronJobState.empty))).jobExecutionTotal = _
      rw [cronPostFold_char cfg lv h errs, cronPreIter_char cfg lv h]
      simp [CronJobState.empty]
    have hSF : ∀ b : Bool,
        ([lv.JobName, if b then Failure else Success] : List String).getD 1 ""
          = Success ∨
        ([lv.JobName, if b then Failure else Success] : List String).getD 1 ""
          = Failure := by
      intro b; cases b
      · exact Or.inl rfl
      · exact Or.inr rfl
    have hMapNe : ∀ b : Bool,
        ([lv.JobName, if b then Failure else Success] : List String).getD 1 ""
          ≠ Total := by
      intro b; cases b
      · show Success ≠ Total; decide
      · show Failure ≠ Total; decide
    have hTT : ([lv.JobName, Total] : List String).getD 1 "" = Total := rfl
    have hTS : ([lv.JobName, Total] : List String).getD 1 "" ≠ Success := by
      show Total ≠ Success; decide
    have hTF : ([lv.JobName, Total] : List String).getD 1 "" ≠ Failure := by
      show Total ≠ Failure; decide
    constructor
    · rw [hrun, statusCount_append, statusCount_replicate, if_pos hTT,
        statusCount_map_ne 1 Total _ hMapNe errs]
      omega
    · have hsum := statusCount_map_sum 1 _ hSF errs
      rw [hrun, statusCount_append, statusCount_append,
        statusCount_replicate, statusCount_replicate, if_neg hTS, if_neg hTF]
      omega
  · intro cfg lv m succs h
    have hrun : (dsRun cfg lv m succs DSState.empty).httpRequests
        = List.replicate succs.length
            [lv.Name, lv.HTTPMethod, "", lv.APIIdentifier, Total]
          ++ succs.map (fun b =>
              [lv.Name, m.Method, goItoa m.Code, lv.APIIdentifier,
               if b then Success else Failure]) := by
      show ((succs.foldl _ (dsPreIter cfg lv succs.length DSState.empty))).httpRequests = _
      rw [dsPostFold_char cfg lv m h succs, dsPreIter_char cfg lv h]
      simp [DSState.empty]
    have hSF : ∀ b : Bool,
        ([lv.Name, m.Method, goItoa m.Code, lv.APIIdentifier,
          if b then Success else Failure] : List String).getD 4 ""
          = Success ∨
        ([lv.Name, m.Method, goItoa m.Code, lv.APIIdentifier,
          if b then Success else Failure] : List String).getD 4 ""
          = Failure := by
      intro b; cases b
      · exact Or.inr rfl
      · exact Or.inl rfl
    have hMapNe : ∀ b : Bool,
        ([lv.Name, m.Method, goItoa m.Code, lv.APIIdentifier,
          if b then Success else Failure] : List String).getD 4 "" ≠ Total := by
      intro b; cases b
      · show Failure ≠ Total; decide
      · show Success ≠ Total; decide
    have hTT : ([lv.Name, lv.HTTPMethod, "", lv.APIIdentifier,
        Total] : List String).getD 4 "" = Total := rfl
    have hTS : ([lv.Name, lv.HTTPMethod, "", lv.APIIdentifier,
        Total] : List String).getD 4 "" ≠ Success := by
      show Total ≠ Success; decide
    have hTF : ([lv.Name, lv.HTTPMethod, "", lv.APIIdentifier,
        Total] : List String).getD 4 "" ≠ Failure := by
      show Total ≠ Failure; decide
    constructor
    · rw [hrun, statusCount_append, statusCount_replicate, if_pos hTT,
        statusCount_map_ne 4 Total _ hMapNe succs]
      omega
    · have hsum := statusCount_map_sum 4 _ hSF succs
      rw [hrun, statusCount_append, statusCount_append,
        statusCount_replicate, statusCount_replicate, if_neg hTS, if_neg hTF]
      omega
  · intro cfg lv txns h
    have hrun : (psRun cfg lv txns PSState.empty).totalMessagesConsumed
        = List.replicate txns.length
            [lv.Source, lv.Entity, lv.EntityOpType, Total, ""]
          ++ List.replicate txns.length
            [lv.Source, lv.Entity, lv.EntityOpType,
             if lv.ErrorCode ≠ "" then Failure else Success, lv.ErrorCode] := by
      show ((txns.foldl _ (psPreIter cfg lv txns.length PSState.empty))).totalMessagesConsumed = _
      rw [psPostFold_consumed cfg lv h txns, psPreIter_consumed cfg lv h]
      simp [PSState.empty]
    have hTT : ([lv.Source, lv.Entity, lv.EntityOpType, Total,
        ""] : List String).getD 3 "" = Total := rfl
    have hTS : ([lv.Source, lv.Entity, lv.EntityOpType, Total,
        ""] : List String).getD 3 "" ≠ Success := by
      show Total ≠ Success; decide
    have hTF : ([lv.Source, lv.Entity, lv.EntityOpType, Total,
        ""] : List String).getD 3 "" ≠ Failure := by
      show Total ≠ Failure; decide
    by_cases he : lv.ErrorCode = ""
    · have hpost : ([lv.Source, lv.Entity, lv.EntityOpType,
          if lv.ErrorCode ≠ "" then Failure else Success,
          lv.ErrorCode] : List String).getD 3 "" = Success := by
        show (if lv.ErrorCode ≠ "" then Failure else Success) = Success
        rw [he]; simp
      have hpostT : ([lv.Source, lv.Entity, lv.EntityOpType,
          if lv.ErrorCode ≠ "" then Failure else Success,
          lv.ErrorCode] : List String).getD 3 "" ≠ Total := by
        rw [hpost]; decide
      have hpostF : ([lv.Source, lv.Entity, lv.EntityOpType,
          if lv.ErrorCode ≠ "" then Failure else Success,
          lv.ErrorCode] : List String).getD 3 "" ≠ Failure := by
        rw [hpost]; decide
      constructor
      · rw [hrun, statusCount_append, statusCount_replicate,
          statusCount_replicate, if_pos hTT, if_neg hpostT]
        omega
      · rw [hrun]
        simp only [statusCount_append, statusCount_replicate]
        rw [if_neg hTS, if_pos hpost, if_neg hTF, if_neg hpostF]
        omega
    · have hpost : ([lv.Source, lv.Entity, lv.EntityOpType,
          if lv.ErrorCode ≠ "" then Failure else Success,
          lv.ErrorCode] : List String).getD 3 "" = Failure := by
        show (if lv.ErrorCode ≠ "" then Failure else Success) = Failure
        simp [he]
      have hpostT : ([lv.Source, lv.Entity, lv.EntityOpType,
          if lv.ErrorCode ≠ "" then Failure else Success,
          lv.ErrorCode] : List String).getD 3 "" ≠ Total := by
        rw [hpost]; decide
      have hpostS : ([lv.Source, lv.Entity, lv.EntityOpType,
          if lv.ErrorCode ≠ "" then Failure else Success,
          lv.ErrorCode] : List String).getD 3 "" ≠ Success := by
        rw [hpost]; decide
      constructor
      · rw [hrun, statusCount_append, statusCount_replicate,
          statusCount_replicate, if_pos hTT, if_neg hpostT]
        omega
      · rw [hrun]
        simp only [statusCount_append, statusCount_replicate]
        rw [if_neg hTS, if_neg hpostS, if_neg hTF, if_pos hpost]
        omega
  · intro cfg lv txns h
    have hrun : (psRun cfg lv txns PSState.empty).totalMessagesPublished
        = List.replicate txns.length [lv.Entity, lv.EntityOpType, Total]
          ++ txns.filterMap (fun t? =>
              t?.map (fun t =>
                [lv.Entity, lv.EntityOpType,
                 if t.IsPublished then Success else Failure])) := by
      show ((txns.foldl _ (psPreIter cfg lv txns.length PSState.empty))).totalMessagesPublished = _
      rw [psPostFold_published cfg lv h txns, psPreIter_published cfg lv h]
      simp [PSState.empty]
    have hTT : ([lv.Entity, lv.EntityOpType, Total] : List String).getD 2 ""
        = Total := rfl
    have hTS : ([lv.Entity, lv.EntityOpType, Total] : List String).getD 2 ""
        ≠ Success := by
      show Total ≠ Success; decide
    have hTF : ([lv.Entity, lv.EntityOpType, Total] : List String).getD 2 ""
        ≠ Failure := by
      show Total ≠ Failure; decide
    constructor
    · rw [hrun, statusCount_append, statusCount_replicate, if_pos hTT,
        pub_filterMap_statusCount_ne lv Total (by decide) (by decide) txns]
      omega
    · intro hall
      have hsum := pub_filterMap_statusCount_sum lv txns hall
      rw [hrun]
      simp only [statusCount_append, statusCount_replicate]
      rw [if_neg hTS, if_neg hTF]
      omega

/-- Counterexample to C5 as stated: the Pub/Sub published counter is a
total/success/failure counter, yet one `Pre` followed by one `Post` with nil
transaction data (and matching labels, from zero counts) leaves its `"total"`
count at 1 while `"success" + "failure"` is 0, not 1. -/
theorem C5_counterexample :
    statusCount 2 Total
        (psRun psCfgPubOnly psLv0 [none] PSState.empty).totalMessagesPublished = 1 ∧
    statusCount 2 Success
        (psRun psCfgPubOnly psLv0 [none] PSState.empty).totalMessagesPublished
      + statusCount 2 Failure
        (psRun psCfgPubOnly psLv0 [none] PSState.empty).totalMessagesPublished
      ≠ 1 := by
  constructor <;> decide

/-- Witness for C5: two database operations (one success, one failure). -/
theorem C5_witness :
    statusCount 4 Total
        (dbRun ⟨true, false⟩ dbLv0 [false, true] DBState.empty).operationsTotal = 2 ∧
    statusCount 4 Success
        (dbRun ⟨true, false⟩ dbLv0 [false, true] DBState.empty).operationsTotal
      + statusCount 4 Failure
        (dbRun ⟨true, false⟩ dbLv0 [false, true] DBState.empty).operationsTotal = 2 := by
  have h := C5_counter_invariant.1 ⟨true, false⟩ dbLv0 [false, true] rfl
  exact ⟨h.1, h.2⟩

end AppMonitoring
